import Mathlib

/-!
Shallow embedding of the downshift selection-widget engine.

The class component lives in `src/src/downshift.js` (the `Downshift` React
class); the hooks utilities live in `src/unnamed/part_000`.  State fields,
patches and the `internalSetState` pipeline are transcribed directly from the
source.  JavaScript `undefined`/absent keys are modelled with `Option`; the
`null` value of nullable fields (`highlightedIndex`, `selectedItem`) is the
inner `Option`'s `none`.  Side-channel callbacks are recorded as an ordered
event trace instead of being executed.

The repository's `src/utils` module (imported by `downshift.js` but not
included under `src/`) supplies `getState`, `isControlledProp` and
`getHighlightedIndex`; those are modelled from the spec, as marked on their
doc comments.
-/

namespace Downshift

/-- Items are opaque values compared by identity; strings suffice for the
claims, and they make JavaScript truthiness expressible. -/
abbrev Item := String

/-- The canonical interaction state: the four semantic fields of
`downshift.js` (constructor, lines 120-146).  `none` in
`highlightedIndex`/`selectedItem` models JavaScript `null`. -/
@[ext]
structure DState where
  isOpen : Bool
  highlightedIndex : Option Int
  inputValue : String
  selectedItem : Option Item
deriving DecidableEq, Repr

/-- The `stateChangeTypes` discriminants used by the embedded handlers. -/
inductive ChangeType where
  | unknown
  | keyDownArrowDown
  | keyDownArrowUp
  | keyDownEnter
  | keyDownEscape
  | keyDownHome
  | keyDownEnd
  | keyDownSpaceButton
  | clickButton
  | blurButton
  | blurInput
  | mouseUp
  | touchEnd
  | changeInput
  | clickItem
  | itemMouseEnter
  | controlledPropUpdatedSelectedItem
deriving DecidableEq, Repr

/-- A partial state object (`stateToSet`): the outer `Option` on each field
models key presence (`hasOwnProperty`). -/
structure Patch where
  isOpen : Option Bool := none
  highlightedIndex : Option (Option Int) := none
  inputValue : Option String := none
  selectedItem : Option (Option Item) := none
  type : Option ChangeType := none
deriving DecidableEq, Repr

/-- JavaScript object spread `\x7b...base, ...other\x7d`: keys present in
`other` override `base`. -/
def Patch.mergeOver (base other : Patch) : Patch where
  isOpen := other.isOpen <|> base.isOpen
  highlightedIndex := other.highlightedIndex <|> base.highlightedIndex
  inputValue := other.inputValue <|> base.inputValue
  selectedItem := other.selectedItem <|> base.selectedItem
  type := other.type <|> base.type

/-- `defaultProps.itemToString` (downshift.js 85-102): empty string for a
null item, `String(i)` otherwise (identity on strings). -/
def defaultItemToString : Option Item → String
  | none => ""
  | some i => i

/-- `defaultProps.stateReducer` (downshift.js 113): the identity override,
returning the proposed patch unchanged. -/
def defaultStateReducer : DState → Patch → Patch :=
  fun _ stateToSet => stateToSet

/-- The caller-supplied props the embedded engine reads.  A `some` in one of
the four `...Prop` fields means the caller passed that prop, making the field
externally controlled (`isControlledProp` is `.isSome` on these). -/
structure Props where
  isOpenProp : Option Bool := none
  highlightedIndexProp : Option (Option Int) := none
  inputValueProp : Option String := none
  selectedItemProp : Option (Option Item) := none
  itemCountProp : Option Int := none
  defaultIsOpen : Bool := false
  defaultHighlightedIndex : Option Int := none
  itemToString : Option Item → String := defaultItemToString
  stateReducer : DState → Patch → Patch := defaultStateReducer

/-- Modelled from the spec: `getState` and `isControlledProp` live in
`src/utils`, which is not included under `src/`.  Spec §4.2: resolution is
applied independently for every field; a field whose external prop is present
takes the prop's value, otherwise the internally tracked value. -/
def getState (stateToMerge : DState) (props : Props) : DState where
  isOpen := props.isOpenProp.getD stateToMerge.isOpen
  highlightedIndex := props.highlightedIndexProp.getD stateToMerge.highlightedIndex
  inputValue := props.inputValueProp.getD stateToMerge.inputValue
  selectedItem := props.selectedItemProp.getD stateToMerge.selectedItem

/-- The argument of `internalSetState`: either a plain patch object or an
updater function of the current effective state (downshift.js 321). -/
inductive StateToSet where
  | obj (patch : Patch)
  | fn (f : DState → Patch)

/-- The side-channel calls `internalSetState` makes, in order.  Arguments
record only what the claims inspect. -/
inductive Notif where
  | onInputValueChange (value : String)
  | callback
  | onStateChange
  | onSelect (rawSelectedItem : Option (Option Item))
  | onChange (selectedItem : Option Item)
  | onUserAction
deriving DecidableEq, Repr

/-- The proposed patch before the user override: the object itself, or the
updater applied to the current effective state (downshift.js 337-339). -/
def proposedPatch (props : Props) (s : DState) (stateToSet : StateToSet) : Patch :=
  match stateToSet with
  | .obj p => p
  | .fn f => f (getState s props)

/-- `newStateToSet` after line 342: the caller-supplied `stateReducer`
applied to the effective state and the proposal. -/
def reducedPatch (props : Props) (s : DState) (stateToSet : StateToSet) : Patch :=
  props.stateReducer (getState s props) (proposedPatch props s stateToSet)

/-- One iteration of the key loop at downshift.js 363-368: a key present in
the patch counts as changed when its value differs by identity from the
effective state's. -/
def keyChanged {α : Type} [DecidableEq α] (proposed : Option α) (current : α) : Bool :=
  match proposed with
  | some v => decide (v ≠ current)
  | none => false

/-- Whether some key of the patch other than `type` differs (by identity)
from the effective state: the key loop at downshift.js 363-368 collecting
`onStateChangeArg`, hence `hasMoreStateThanType` at line 405 (`type` itself
is always collected after the `||=` at line 361). -/
def changedKeysBesidesType (state : DState) (p : Patch) : Bool :=
  keyChanged p.isOpen state.isOpen
    || keyChanged p.highlightedIndex state.highlightedIndex
    || keyChanged p.inputValue state.inputValue
    || keyChanged p.selectedItem state.selectedItem

/-- The state committed by the updater (downshift.js 363-383, 397): every
key of the reduced patch except `type` is written into internal state,
skipping externally controlled fields; absent keys are left alone. -/
def commitPatch (props : Props) (s : DState) (p : Patch) : DState where
  isOpen :=
    if props.isOpenProp.isSome then s.isOpen else p.isOpen.getD s.isOpen
  highlightedIndex :=
    if props.highlightedIndexProp.isSome then s.highlightedIndex
    else p.highlightedIndex.getD s.highlightedIndex
  inputValue :=
    if props.inputValueProp.isSome then s.inputValue
    else p.inputValue.getD s.inputValue
  selectedItem :=
    if props.selectedItemProp.isSome then s.selectedItem
    else p.selectedItem.getD s.selectedItem

/-- The early `onInputValueChange` call (downshift.js 328-333): fires before
`setState` whenever the raw object patch has an `inputValue` key, with the
raw proposed value, changed or not. -/
def earlyInputNotifs (stateToSet : StateToSet) : List Notif :=
  match stateToSet with
  | .obj p =>
    match p.inputValue with
    | some v => [Notif.onInputValueChange v]
    | none => []
  | .fn _ => []

/-- The late `onInputValueChange` call (downshift.js 387-395): for updater
functions it fires inside the updater with the reduced patch's value. -/
def lateInputNotifs (stateToSet : StateToSet) (reduced : Patch) : List Notif :=
  match stateToSet with
  | .fn _ =>
    match reduced.inputValue with
    | some v => [Notif.onInputValueChange v]
    | none => []
  | .obj _ => []

/-- `onChangeArg` (downshift.js 355-360): set when the reduced patch has a
`selectedItem` key whose value differs by identity from the effective state. -/
def onChangeArgOf (state : DState) (reduced : Patch) : Option (Option Item) :=
  match reduced.selectedItem with
  | some v => if v = state.selectedItem then none else some v
  | none => none

/-- The first argument of `onSelect` (downshift.js 410-415):
`stateToSet.selectedItem` read off the RAW argument, which is `undefined`
when `stateToSet` is an updater function. -/
def rawSelectedOf (stateToSet : StateToSet) : Option (Option Item) :=
  match stateToSet with
  | .obj p => p.selectedItem
  | .fn _ => none

/-- The `setState` completion callback (downshift.js 399-423): the provided
callback events first, then `onStateChange` when some key besides `type`
changed, then `onSelect` when the reduced patch has a `selectedItem` key,
then `onChange` when the selection changed, then `onUserAction` always. -/
def completionNotifs (state : DState) (stateToSet : StateToSet) (reduced : Patch)
    (callbackEvents : List Notif) : List Notif :=
  callbackEvents
    ++ (if changedKeysBesidesType state reduced then [Notif.onStateChange] else [])
    ++ (if reduced.selectedItem.isSome then [Notif.onSelect (rawSelectedOf stateToSet)] else [])
    ++ (match onChangeArgOf state reduced with
        | some v => [Notif.onChange v]
        | none => [])
    ++ [Notif.onUserAction]

/-- Runs the continuation standing for `cbToCb(cb)()` on the committed
state; `none` models an absent callback (`cbToCb` turns it into a no-op). -/
def applyCont (k : Option (DState → DState × List Notif)) (st : DState) :
    DState × List Notif :=
  match k with
  | some f => f st
  | none => (st, [])

/-- `internalSetState` (downshift.js 317-425) with an explicit continuation
in the place of the caller-provided callback, so that handlers which chain a
second transition from inside the callback can be embedded too.  Returns the
resulting internal state and the ordered trace of side-channel calls. -/
def internalSetStateK (props : Props) (s : DState) (stateToSet : StateToSet)
    (k : Option (DState → DState × List Notif)) : DState × List Notif :=
  ((applyCont k (commitPatch props s (reducedPatch props s stateToSet))).1,
    earlyInputNotifs stateToSet
      ++ lateInputNotifs stateToSet (reducedPatch props s stateToSet)
      ++ completionNotifs (getState s props) stateToSet
          (reducedPatch props s stateToSet)
          (applyCont k (commitPatch props s (reducedPatch props s stateToSet))).2)

/-- `internalSetState` with a plain caller callback: `hasCb` records whether
the originating call attached one (`cbToCb(cb)()`, downshift.js 401). -/
def internalSetState (props : Props) (s : DState) (stateToSet : StateToSet)
    (hasCb : Bool) : DState × List Notif :=
  internalSetStateK props s stateToSet
    (if hasCb then some (fun st => (st, [Notif.callback])) else none)

/-- One live `Downshift` instance: props, internal `this.state`, the item
registry `this.items`, the instance field `this.itemCount`, and the
DOM-supplied disabled lookup (`getItemNodeFromIndex(i).hasAttribute`,
downshift.js 230-234). -/
structure Session where
  props : Props
  state : DState
  items : List Item
  itemCount : Option Int := none
  isItemDisabled : Nat → Bool := fun _ => false

/-- `getItemCount` (downshift.js 202-214), in priority order: the instance
`this.itemCount` when not null, else the `itemCount` prop when defined, else
`this.items.length`. -/
def getItemCount (instanceItemCount : Option Int) (itemCountProp : Option Int)
    (itemsLength : Nat) : Int :=
  match instanceItemCount with
  | some c => c
  | none =>
    match itemCountProp with
    | some c => c
    | none => (itemsLength : Int)

/-- `this.getItemCount()` for a session. -/
def Session.getItemCount (sess : Session) : Int :=
  Downshift.getItemCount sess.itemCount sess.props.itemCountProp sess.items.length

/-- `setItemCount` (downshift.js 216-218). -/
def Session.setItemCount (sess : Session) (count : Int) : Session :=
  { sess with itemCount := some count }

/-- `unsetItemCount` (downshift.js 220-222). -/
def Session.unsetItemCount (sess : Session) : Session :=
  { sess with itemCount := none }

/-- `this.items[index]`: `undefined` for a null, negative or out-of-range
index. -/
def itemAt (items : List Item) (index : Option Int) : Option Item :=
  match index with
  | none => none
  | some i => if i < 0 then none else items[i.toNat]?

/-- Modelled from the spec: the walk origin of the Index Navigator.  A
missing or out-of-range current index starts the walk from just outside the
corresponding edge, so that the first step lands on the first (or last)
index. -/
def startIndex (current : Option Int) (step itemCount : Int) : Int :=
  match current with
  | some c => if 0 ≤ c ∧ c < itemCount then c else if 0 < step then -1 else itemCount
  | none => if 0 < step then -1 else itemCount

/-- The index visited at walk position `j`: the walk starts at
`start + step` and proceeds by the sign of `step`, wrapping modulo
`itemCount`. -/
def navCandidate (current : Option Int) (step itemCount : Int) (j : Nat) : Int :=
  (startIndex current step itemCount + step
      + (if 0 < step then 1 else -1) * (j : Int)) % itemCount

/-- Modelled from the spec: the Index Navigator `move`
(`getHighlightedIndex` in `src/utils`, not included under `src/`).  Spec
§4.1: if `itemCount <= 0` return the sentinel (spec §3: e.g. `-1`);
otherwise start from `currentIndex + step`, walk in the direction of
`step`'s sign wrapping modulo `itemCount`, skip disabled indexes, and return
the sentinel once every index has been visited. -/
def getHighlightedIndex (current : Option Int) (step itemCount : Int)
    (isItemDisabled : Nat → Bool) : Int :=
  if itemCount ≤ 0 then -1
  else
    match (List.range itemCount.toNat).find?
        (fun j : Nat => !(isItemDisabled (navCandidate current step itemCount j).toNat)) with
    | some j => navCandidate current step itemCount j
    | none => -1

/-- `setHighlightedIndex` (downshift.js 236-242) with an explicit index:
dispatches the patch with the given `highlightedIndex` merged under
`otherStateToSet`. -/
def setHighlightedIndex (sess : Session) (highlightedIndex : Option Int)
    (otherStateToSet : Patch) (hasCb : Bool) : DState × List Notif :=
  internalSetState sess.props sess.state
    (.obj (Patch.mergeOver { highlightedIndex := some highlightedIndex } otherStateToSet))
    hasCb

/-- `moveHighlightedIndex` (downshift.js 252-265): when the item count is
positive, navigate from the current effective highlight by `amount` and
commit the result; otherwise do nothing. -/
def moveHighlightedIndex (sess : Session) (amount : Int) (otherStateToSet : Patch) :
    DState × List Notif :=
  if 0 < sess.getItemCount then
    setHighlightedIndex sess
      (some (getHighlightedIndex (getState sess.state sess.props).highlightedIndex
        amount sess.getItemCount sess.isItemDisabled))
      otherStateToSet false
  else (sess.state, [])

/-- `selectItem` (downshift.js 279-291): closes to the default open state,
resets the highlight, sets the selection and its string projection, all
overridable by `otherStateToSet`. -/
def selectItem (props : Props) (s : DState) (item : Item) (otherStateToSet : Patch)
    (hasCb : Bool) : DState × List Notif :=
  internalSetState props s
    (.obj (Patch.mergeOver
      { isOpen := some props.defaultIsOpen
        highlightedIndex := some props.defaultHighlightedIndex
        selectedItem := some (some item)
        inputValue := some (props.itemToString (some item)) }
      otherStateToSet))
    hasCb

/-- `selectItemAtIndex` (downshift.js 293-299): a null item is a complete
no-op, otherwise `selectItem`. -/
def selectItemAtIndex (sess : Session) (itemIndex : Option Int)
    (otherStateToSet : Patch) (hasCb : Bool) : DState × List Notif :=
  match itemAt sess.items itemIndex with
  | none => (sess.state, [])
  | some item => selectItem sess.props sess.state item otherStateToSet hasCb

/-- `selectHighlightedItem` (downshift.js 301-307). -/
def selectHighlightedItem (sess : Session) (otherStateToSet : Patch) (hasCb : Bool) :
    DState × List Notif :=
  selectItemAtIndex sess (getState sess.state sess.props).highlightedIndex
    otherStateToSet hasCb

/-- `clearSelection` (downshift.js 267-277). -/
def clearSelection (props : Props) (s : DState) (hasCb : Bool) :
    DState × List Notif :=
  internalSetState props s
    (.obj { selectedItem := some none
            inputValue := some ""
            highlightedIndex := some props.defaultHighlightedIndex
            isOpen := some props.defaultIsOpen })
    hasCb

/-- `reset` (downshift.js 998-1009): an updater restoring `isOpen` and
`highlightedIndex` to the configured defaults and recomputing `inputValue`
from the current effective `selectedItem`, with `otherStateToSet` spread on
top. -/
def reset (props : Props) (s : DState) (otherStateToSet : Patch) (hasCb : Bool) :
    DState × List Notif :=
  internalSetState props s
    (.fn (fun state => Patch.mergeOver
      { isOpen := some props.defaultIsOpen
        highlightedIndex := some props.defaultHighlightedIndex
        inputValue := some (props.itemToString state.selectedItem) }
      otherStateToSet))
    hasCb

/-- `keyDownHandlers.Escape` (downshift.js 607-613): a reset that, when the
INTERNAL `this.state.isOpen` is false at the time of the keypress, also
clears `selectedItem` to null and `inputValue` to the empty string. -/
def escapeKeyDown (props : Props) (s : DState) : DState × List Notif :=
  reset props s
    (if s.isOpen then { type := some ChangeType.keyDownEscape }
     else { type := some ChangeType.keyDownEscape
            selectedItem := some none
            inputValue := some "" })
    false

/-- `keyDownHandlers.Enter` (downshift.js 588-605): key code 229 (composing
IME) returns immediately; otherwise, when open with a non-null highlight, a
materialized non-disabled item at that index is committed via
`selectHighlightedItem`; every other case is a complete no-op. -/
def enterKeyDown (sess : Session) (which : Int) : DState × List Notif :=
  if which = 229 then (sess.state, [])
  else
    match (getState sess.state sess.props).isOpen,
        (getState sess.state sess.props).highlightedIndex with
    | true, some hi =>
      match itemAt sess.items (some hi) with
      | none => (sess.state, [])
      | some _ =>
        if sess.isItemDisabled hi.toNat then (sess.state, [])
        else selectHighlightedItem sess { type := some ChangeType.keyDownEnter } false
    | _, _ => (sess.state, [])

/-- `keyDownHandlers.ArrowDown` (downshift.js 517-551): while open, navigate
by `+1` (`+5` with shift); while closed, open the menu and then, from the
completion callback, highlight the first index when the collection is
non-empty. -/
def arrowDownKeyDown (sess : Session) (shiftKey : Bool) : DState × List Notif :=
  if (getState sess.state sess.props).isOpen then
    moveHighlightedIndex sess (if shiftKey then 5 else 1)
      { type := some ChangeType.keyDownArrowDown }
  else
    internalSetStateK sess.props sess.state
      (.obj { isOpen := some true, type := some ChangeType.keyDownArrowDown })
      (some (fun committed =>
        if 0 < sess.getItemCount then
          setHighlightedIndex { sess with state := committed }
            (some (getHighlightedIndex (getState committed sess.props).highlightedIndex
              1 sess.getItemCount sess.isItemDisabled))
            { type := some ChangeType.keyDownArrowDown } false
        else (committed, [])))

/-! Hooks utilities from `src/unnamed/part_000`. -/

/-- JavaScript truthiness of an item value: `null` and the empty string are
falsy. -/
def itemTruthy : Option Item → Bool
  | none => false
  | some s => !s.isEmpty

/-- JavaScript `Array.prototype.indexOf`: `-1` when the element is absent. -/
def jsIndexOf (items : List Item) (x : Item) : Int :=
  match items.findIdx? (fun y => decide (y = x)) with
  | some i => (i : Int)
  | none => -1

/-- The hook props read by `getHighlightedIndexOnOpen`. -/
structure HookProps where
  items : List Item
  initialHighlightedIndex : Option Int := none
  defaultHighlightedIndex : Option Int := none

/-- The hook state read by `getHighlightedIndexOnOpen`; the hooks' sentinel
highlighted index is `-1`. -/
structure HookState where
  selectedItem : Option Item := none
  highlightedIndex : Int := -1

/-- `getHighlightedIndexOnOpen` (part_000 308-333), transcribed clause by
clause: empty collection forces the sentinel; a still-current
`initialHighlightedIndex` wins, then `defaultHighlightedIndex`, then the
index of a truthy selected item, then no highlight for offset `0`, else the
last or first index by the sign of the offset. -/
def getHighlightedIndexOnOpen (props : HookProps) (state : HookState)
    (offset : Int) : Int :=
  if props.items.length = 0 then -1
  else if props.initialHighlightedIndex = some state.highlightedIndex then
    state.highlightedIndex
  else
    match props.defaultHighlightedIndex with
    | some d => d
    | none =>
      if itemTruthy state.selectedItem then
        jsIndexOf props.items (state.selectedItem.getD "")
      else if offset = 0 then -1
      else if offset < 0 then (props.items.length : Int) - 1
      else 0

/-! Concrete instances used by the witnesses and counterexamples. -/

/-- All-default props: every field uncontrolled, identity reducer. -/
def propsD : Props := {}

/-- The initial uncontrolled state of a fresh component with default props. -/
def s0 : DState :=
  { isOpen := false, highlightedIndex := none, inputValue := "", selectedItem := none }

/-- A state whose `inputValue` is `"x"`, for the no-op dispatch scenario. -/
def s3 : DState :=
  { isOpen := false, highlightedIndex := none, inputValue := "x", selectedItem := none }

/-- A patch re-proposing the exact current `inputValue` of `s3`. -/
def noopPatch : Patch := { inputValue := some "x" }

/-- Scenario B of the spec: three items, open, highlight on the last index. -/
def sessB : Session :=
  { props := propsD
    state := { isOpen := true, highlightedIndex := some 2, inputValue := ""
               selectedItem := none }
    items := ["a", "b", "c"] }

/-- Open session whose highlighted index is the sentinel (null). -/
def sessC6 : Session :=
  { props := propsD
    state := { isOpen := true, highlightedIndex := none, inputValue := ""
               selectedItem := none }
    items := ["a", "b", "c"] }

/-- A state reducer that rewrites every proposal into `inputValue := "B"`. -/
def rewriteReducer : DState → Patch → Patch :=
  fun _ _ => { inputValue := some "B" }

/-- Props carrying `rewriteReducer` as the override hook. -/
def propsR : Props := { stateReducer := rewriteReducer }

/-- A state whose `inputValue` is `"Z"`, for the override scenario. -/
def s8 : DState :=
  { isOpen := false, highlightedIndex := none, inputValue := "Z", selectedItem := none }

/-- A proposal whose `inputValue` is `"A"`, to be rewritten by the override. -/
def patch8 : Patch := { inputValue := some "A" }

/-- Hook props with three items and an out-of-range configured default
highlight. -/
def hookProps4 : HookProps :=
  { items := ["a", "b", "c"], defaultHighlightedIndex := some 10 }

/-- Hook state with no selection and the sentinel highlight. -/
def hookState4 : HookState := { selectedItem := none, highlightedIndex := -1 }

/-- Props controlling `selectedItem` to `"x"` while leaving the other fields
uncontrolled. -/
def propsC2 : Props := { selectedItemProp := some (some "x") }

/-- A patch writing both the controlled `selectedItem` and the uncontrolled
`inputValue`. -/
def patchC2 : Patch := { inputValue := some "hello", selectedItem := some (some "y") }

/-- A state with an open menu and the selection `"b"`, for the reset
scenarios. -/
def sEsc : DState :=
  { isOpen := true, highlightedIndex := some 1, inputValue := "b", selectedItem := some "b" }

/-- The same state as `sEsc` but with the menu closed. -/
def sEscClosed : DState :=
  { isOpen := false, highlightedIndex := some 1, inputValue := "b", selectedItem := some "b" }

/-! Helper lemmas about the `internalSetState` pipeline. -/

theorem internalSetState_fst (props : Props) (s : DState) (stateToSet : StateToSet)
    (hasCb : Bool) :
    (internalSetState props s stateToSet hasCb).1 =
      commitPatch props s (reducedPatch props s stateToSet) := by
  cases hasCb <;> rfl

theorem internalSetState_snd (props : Props) (s : DState) (stateToSet : StateToSet)
    (hasCb : Bool) :
    (internalSetState props s stateToSet hasCb).2 =
      earlyInputNotifs stateToSet
        ++ lateInputNotifs stateToSet (reducedPatch props s stateToSet)
        ++ completionNotifs (getState s props) stateToSet
            (reducedPatch props s stateToSet)
            (if hasCb then [Notif.callback] else []) := by
  cases hasCb <;> rfl

theorem mem_earlyInputNotifs (stateToSet : StateToSet) (e : Notif)
    (h : e ∈ earlyInputNotifs stateToSet) : ∃ v, e = Notif.onInputValueChange v := by
  cases stateToSet with
  | obj p =>
    cases hp : p.inputValue with
    | none => simp [earlyInputNotifs, hp] at h
    | some v => exact ⟨v, by simpa [earlyInputNotifs, hp] using h⟩
  | fn f => simp [earlyInputNotifs] at h

theorem mem_lateInputNotifs (stateToSet : StateToSet) (reduced : Patch) (e : Notif)
    (h : e ∈ lateInputNotifs stateToSet reduced) :
    ∃ v, e = Notif.onInputValueChange v := by
  cases stateToSet with
  | obj p => simp [lateInputNotifs] at h
  | fn f =>
    cases hp : reduced.inputValue with
    | none => simp [lateInputNotifs, hp] at h
    | some v => exact ⟨v, by simpa [lateInputNotifs, hp] using h⟩

theorem onStateChange_mem_iff (props : Props) (s : DState) (stateToSet : StateToSet)
    (hasCb : Bool) :
    Notif.onStateChange ∈ (internalSetState props s stateToSet hasCb).2 ↔
      changedKeysBesidesType (getState s props) (reducedPatch props s stateToSet) = true := by
  rw [internalSetState_snd]
  constructor
  · intro h
    rcases List.mem_append.mp h with h | h
    · rcases List.mem_append.mp h with h | h
      · rcases mem_earlyInputNotifs _ _ h with ⟨v, hv⟩
        cases hv
      · rcases mem_lateInputNotifs _ _ _ h with ⟨v, hv⟩
        cases hv
    · unfold completionNotifs at h
      cases hck : changedKeysBesidesType (getState s props) (reducedPatch props s stateToSet) with
      | true => rfl
      | false =>
        exfalso
        cases hsel : (reducedPatch props s stateToSet).selectedItem.isSome <;>
          cases harg : onChangeArgOf (getState s props) (reducedPatch props s stateToSet) <;>
            cases hasCb <;> simp [hck, hsel, harg] at h
  · intro h
    refine List.mem_append.mpr (Or.inr ?_)
    unfold completionNotifs
    simp [h]

theorem onUserAction_mem (props : Props) (s : DState) (stateToSet : StateToSet)
    (hasCb : Bool) :
    Notif.onUserAction ∈ (internalSetState props s stateToSet hasCb).2 := by
  rw [internalSetState_snd]
  refine List.mem_append.mpr (Or.inr ?_)
  unfold completionNotifs
  simp

theorem onChange_not_mem (props : Props) (s : DState) (stateToSet : StateToSet)
    (hasCb : Bool) (v : Option Item)
    (h : onChangeArgOf (getState s props) (reducedPatch props s stateToSet) = none) :
    Notif.onChange v ∉ (internalSetState props s stateToSet hasCb).2 := by
  rw [internalSetState_snd]
  intro hmem
  rcases List.mem_append.mp hmem with hm | hm
  · rcases List.mem_append.mp hm with hm | hm
    · rcases mem_earlyInputNotifs _ _ hm with ⟨w, hw⟩
      cases hw
    · rcases mem_lateInputNotifs _ _ _ hm with ⟨w, hw⟩
      cases hw
  · unfold completionNotifs at hm
    cases hck : changedKeysBesidesType (getState s props) (reducedPatch props s stateToSet) <;>
      cases hsel : (reducedPatch props s stateToSet).selectedItem.isSome <;>
        cases hasCb <;> simp [hck, hsel, h] at hm

theorem keyChanged_eq_false {α : Type} [DecidableEq α] (proposed : Option α) (current : α)
    (h : ∀ v, proposed = some v → v = current) : keyChanged proposed current = false := by
  cases hp : proposed with
  | none => rfl
  | some v => simp [keyChanged, h v hp]

/-- When every prop is absent the merge is the identity (every field is
uncontrolled, so the internal state is authoritative). -/
theorem getState_uncontrolled (props : Props) (s : DState)
    (ho : props.isOpenProp = none) (hh : props.highlightedIndexProp = none)
    (hin : props.inputValueProp = none) (hsel : props.selectedItemProp = none) :
    getState s props = s := by
  simp [getState, ho, hh, hin, hsel]

/-! Claim theorems. -/

/-- C9: an Enter keydown whose `which` code is 229 (in-progress IME
composition) is a complete no-op: all four state fields are unchanged and no
notification of any kind fires, regardless of `isOpen` or
`highlightedIndex`. -/
theorem c9_ime_composition_noop (sess : Session) :
    enterKeyDown sess 229 = (sess.state, []) := by
  unfold enterKeyDown
  simp

theorem c9_ime_composition_noop_witness :
    enterKeyDown sessC6 229 = (sessC6.state, []) :=
  c9_ime_composition_noop sessC6

/-- C10: the effective item count resolves by fixed priority — a count set
via `setItemCount` wins over the `itemCount` prop, which wins over the
materialized items list's length — and `unsetItemCount` restores the
prop/length-based resolution. -/
theorem c10_item_count_priority (sess : Session) (c p : Int) (l : Nat) :
    (sess.setItemCount c).getItemCount = c
      ∧ (sess.setItemCount c).unsetItemCount = sess.unsetItemCount
      ∧ sess.unsetItemCount.getItemCount
          = getItemCount none sess.props.itemCountProp sess.items.length
      ∧ getItemCount none (some p) l = p
      ∧ getItemCount none none l = (l : Int) := by
  exact ⟨rfl, rfl, rfl, rfl, rfl⟩

theorem c10_item_count_priority_witness :
    (sessB.setItemCount 7).getItemCount = 7
      ∧ (sessB.setItemCount 7).unsetItemCount = sessB.unsetItemCount
      ∧ getItemCount none (some 5) 3 = 5
      ∧ getItemCount none none 3 = 3 := by
  have h := c10_item_count_priority sessB 7 5 3
  exact ⟨h.1, h.2.1, h.2.2.2.1, h.2.2.2.2⟩

/-- C6 counterexample: with an open menu and the sentinel (null) highlighted
index, the Enter commit fires NO notification at all — in particular the
generic user-action notification does not fire, contrary to the claim. -/
theorem c6_counterexample :
    (enterKeyDown sessC6 13).2 = []
      ∧ Notif.onUserAction ∉ (enterKeyDown sessC6 13).2 := by
  decide

/-- C6 (amended): when the effective highlighted index is the sentinel, or
resolves to no materialized item, a commit-selection Enter leaves the whole
state unchanged and fires no notification of any kind. -/
theorem c6_sentinel_commit_noop (sess : Session) (which : Int)
    (h : (getState sess.state sess.props).highlightedIndex = none
        ∨ itemAt sess.items (getState sess.state sess.props).highlightedIndex = none) :
    enterKeyDown sess which = (sess.state, []) := by
  unfold enterKeyDown
  split
  · rfl
  · rcases h with h | h
    · cases hio : (getState sess.state sess.props).isOpen <;> simp [h, hio]
    · cases hhi : (getState sess.state sess.props).highlightedIndex with
      | none => cases hio : (getState sess.state sess.props).isOpen <;> simp [hhi, hio]
      | some hi =>
        rw [hhi] at h
        cases hio : (getState sess.state sess.props).isOpen <;> simp [hhi, hio, h]

theorem c6_sentinel_commit_noop_witness :
    enterKeyDown sessC6 13 = (sessC6.state, []) :=
  c6_sentinel_commit_noop sessC6 13 (Or.inl rfl)

/-- C1 counterexample: a `selectItem("a", patch, callback)` call on a fresh
default session produces a trace in which the completion callback is the
second event, while the aggregate state-change, selection and user-action
notifications all fire after it — so the callback is not invoked after every
notification of the transition. -/
theorem c1_counterexample :
    (selectItem propsD s0 "a" {} true).2 =
        [Notif.onInputValueChange "a", Notif.callback, Notif.onStateChange,
          Notif.onSelect (some (some "a")), Notif.onChange (some "a"),
          Notif.onUserAction]
      ∧ Notif.onUserAction ∈ (selectItem propsD s0 "a" {} true).2.drop 2 := by
  decide

/-- C1 (amended): for every transition carrying a caller-provided completion
callback, the callback runs synchronously after the value commit and after
the per-field inputValue notifications, but BEFORE the aggregate
state-change, selection-changed and user-action notifications: it is the
first event of the completion sequence. -/
theorem c1_callback_first_in_completion (props : Props) (s : DState)
    (stateToSet : StateToSet) :
    ∃ pre post,
      (internalSetState props s stateToSet true).2 = pre ++ Notif.callback :: post
        ∧ (∀ e ∈ pre, ∃ v, e = Notif.onInputValueChange v)
        ∧ Notif.callback ∉ post
        ∧ Notif.onUserAction ∈ post := by
  refine ⟨earlyInputNotifs stateToSet
      ++ lateInputNotifs stateToSet (reducedPatch props s stateToSet),
    (if changedKeysBesidesType (getState s props) (reducedPatch props s stateToSet)
        then [Notif.onStateChange] else [])
      ++ (if (reducedPatch props s stateToSet).selectedItem.isSome
          then [Notif.onSelect (rawSelectedOf stateToSet)] else [])
      ++ (match onChangeArgOf (getState s props) (reducedPatch props s stateToSet) with
          | some v => [Notif.onChange v]
          | none => [])
      ++ [Notif.onUserAction], ?_, ?_, ?_, ?_⟩
  · rw [internalSetState_snd]
    simp [completionNotifs, List.append_assoc]
  · intro e he
    rcases List.mem_append.mp he with h | h
    · exact mem_earlyInputNotifs _ _ h
    · exact mem_lateInputNotifs _ _ _ h
  · cases hck : changedKeysBesidesType (getState s props) (reducedPatch props s stateToSet) <;>
      cases hsel : (reducedPatch props s stateToSet).selectedItem.isSome <;>
        cases harg : onChangeArgOf (getState s props) (reducedPatch props s stateToSet) <;>
          simp [hck, hsel, harg]
  · simp

theorem c1_callback_first_in_completion_witness :
    ∃ pre post,
      (internalSetState propsD s0 (.obj { selectedItem := some (some "a") }) true).2
          = pre ++ Notif.callback :: post
        ∧ (∀ e ∈ pre, ∃ v, e = Notif.onInputValueChange v)
        ∧ Notif.callback ∉ post
        ∧ Notif.onUserAction ∈ post :=
  c1_callback_first_in_completion propsD s0 (.obj { selectedItem := some (some "a") })

/-- C2: for every transition, a controlled field's effective value always
equals the external prop (its internal copy is parked unchanged), and the
write of each non-controlled field present in the override-adjusted patch is
not suppressed. -/
theorem c2_controlled_fields (props : Props) (s : DState) (stateToSet : StateToSet)
    (hasCb : Bool) :
    (∀ v, props.isOpenProp = some v →
        (getState (internalSetState props s stateToSet hasCb).1 props).isOpen = v
          ∧ (internalSetState props s stateToSet hasCb).1.isOpen = s.isOpen)
      ∧ (∀ v, props.highlightedIndexProp = some v →
          (getState (internalSetState props s stateToSet hasCb).1 props).highlightedIndex = v
            ∧ (internalSetState props s stateToSet hasCb).1.highlightedIndex
                = s.highlightedIndex)
      ∧ (∀ v, props.inputValueProp = some v →
          (getState (internalSetState props s stateToSet hasCb).1 props).inputValue = v
            ∧ (internalSetState props s stateToSet hasCb).1.inputValue = s.inputValue)
      ∧ (∀ v, props.selectedItemProp = some v →
          (getState (internalSetState props s stateToSet hasCb).1 props).selectedItem = v
            ∧ (internalSetState props s stateToSet hasCb).1.selectedItem = s.selectedItem)
      ∧ (props.isOpenProp = none →
          (internalSetState props s stateToSet hasCb).1.isOpen
            = (reducedPatch props s stateToSet).isOpen.getD s.isOpen)
      ∧ (props.highlightedIndexProp = none →
          (internalSetState props s stateToSet hasCb).1.highlightedIndex
            = (reducedPatch props s stateToSet).highlightedIndex.getD s.highlightedIndex)
      ∧ (props.inputValueProp = none →
          (internalSetState props s stateToSet hasCb).1.inputValue
            = (reducedPatch props s stateToSet).inputValue.getD s.inputValue)
      ∧ (props.selectedItemProp = none →
          (internalSetState props s stateToSet hasCb).1.selectedItem
            = (reducedPatch props s stateToSet).selectedItem.getD s.selectedItem) := by
  rw [internalSetState_fst]
  refine ⟨?_, ?_, ?_, ?_, ?_, ?_, ?_, ?_⟩ <;>
    first
      | (intro v hv
         exact ⟨by simp [getState, hv], by simp [commitPatch, hv]⟩)
      | (intro hv
         simp [commitPatch, hv])

theorem c2_controlled_fields_witness :
    (getState (internalSetState propsC2 s0 (.obj patchC2) true).1 propsC2).selectedItem
        = some "x"
      ∧ (internalSetState propsC2 s0 (.obj patchC2) true).1.selectedItem = none
      ∧ (internalSetState propsC2 s0 (.obj patchC2) true).1.inputValue = "hello" := by
  have h := c2_controlled_fields propsC2 s0 (.obj patchC2) true
  exact ⟨(h.2.2.2.1 (some "x") rfl).1,
    ((h.2.2.2.1 (some "x") rfl).2).trans rfl,
    (h.2.2.2.2.2.2.1 rfl).trans rfl⟩

/-- C3 counterexample: dispatching a patch that re-proposes the exact
current `inputValue` yields an empty changeset, yet the per-field
`onInputValueChange` notification still fires — contrary to the claim that
only the generic user-action notification fires. -/
theorem c3_counterexample :
    reducedPatch propsD s3 (.obj noopPatch) = noopPatch
      ∧ noopPatch.inputValue = some (getState s3 propsD).inputValue
      ∧ changedKeysBesidesType (getState s3 propsD) (reducedPatch propsD s3 (.obj noopPatch))
          = false
      ∧ Notif.onInputValueChange "x" ∈ (internalSetState propsD s3 (.obj noopPatch) false).2
      ∧ (internalSetState propsD s3 (.obj noopPatch) false).1 = s3 := by
  decide

/-- C3 (amended): when the override-adjusted patch proposes, for every field
it contains, a value identical to the current effective state, the changeset
is empty, the internal state is unchanged, and neither the aggregate
state-change nor the selection-changed notification fires, while the generic
user-action notification does fire; however the per-field inputValue
notification still fires for every object patch containing the `inputValue`
key, and `onSelect` still fires whenever the adjusted patch contains the
`selectedItem` key. -/
theorem c3_noop_dispatch (props : Props) (s : DState) (p : Patch) (hasCb : Bool)
    (hOpen : ∀ v, (reducedPatch props s (.obj p)).isOpen = some v →
        v = (getState s props).isOpen)
    (hHi : ∀ v, (reducedPatch props s (.obj p)).highlightedIndex = some v →
        v = (getState s props).highlightedIndex)
    (hInp : ∀ v, (reducedPatch props s (.obj p)).inputValue = some v →
        v = (getState s props).inputValue)
    (hSel : ∀ v, (reducedPatch props s (.obj p)).selectedItem = some v →
        v = (getState s props).selectedItem) :
    (internalSetState props s (.obj p) hasCb).1 = s
      ∧ changedKeysBesidesType (getState s props) (reducedPatch props s (.obj p)) = false
      ∧ Notif.onStateChange ∉ (internalSetState props s (.obj p) hasCb).2
      ∧ (∀ v, Notif.onChange v ∉ (internalSetState props s (.obj p) hasCb).2)
      ∧ Notif.onUserAction ∈ (internalSetState props s (.obj p) hasCb).2
      ∧ (∀ v, p.inputValue = some v →
          Notif.onInputValueChange v ∈ (internalSetState props s (.obj p) hasCb).2)
      ∧ ((reducedPatch props s (.obj p)).selectedItem.isSome = true →
          Notif.onSelect p.selectedItem ∈ (internalSetState props s (.obj p) hasCb).2) := by
  have hck : changedKeysBesidesType (getState s props) (reducedPatch props s (.obj p))
      = false := by
    unfold changedKeysBesidesType
    rw [keyChanged_eq_false _ _ hOpen, keyChanged_eq_false _ _ hHi,
      keyChanged_eq_false _ _ hInp, keyChanged_eq_false _ _ hSel]
    rfl
  have harg : onChangeArgOf (getState s props) (reducedPatch props s (.obj p)) = none := by
    unfold onChangeArgOf
    cases hv : (reducedPatch props s (.obj p)).selectedItem with
    | none => rfl
    | some v => simp [hSel v hv]
  refine ⟨?_, hck, ?_, ?_, onUserAction_mem props s (.obj p) hasCb, ?_, ?_⟩
  · rw [internalSetState_fst]
    ext
    · simp only [commitPatch]
      split
      · rfl
      · rename_i hns
        rw [Option.not_isSome_iff_eq_none] at hns
        cases hv : (reducedPatch props s (.obj p)).isOpen with
        | none => rfl
        | some v => simp [hv, hOpen v hv, getState, hns]
    · simp only [commitPatch]
      split
      · rfl
      · rename_i hns
        rw [Option.not_isSome_iff_eq_none] at hns
        cases hv : (reducedPatch props s (.obj p)).highlightedIndex with
        | none => rfl
        | some v => simp [hv, hHi v hv, getState, hns]
    · simp only [commitPatch]
      split
      · rfl
      · rename_i hns
        rw [Option.not_isSome_iff_eq_none] at hns
        cases hv : (reducedPatch props s (.obj p)).inputValue with
        | none => rfl
        | some v => simp [hv, hInp v hv, getState, hns]
    · simp only [commitPatch]
      split
      · rfl
      · rename_i hns
        rw [Option.not_isSome_iff_eq_none] at hns
        cases hv : (reducedPatch props s (.obj p)).selectedItem with
        | none => rfl
        | some v => simp [hv, hSel v hv, getState, hns]
  · rw [onStateChange_mem_iff, hck]
    simp
  · intro v
    exact onChange_not_mem props s (.obj p) hasCb v harg
  · intro v hv
    rw [internalSetState_snd]
    refine List.mem_append.mpr (Or.inl (List.mem_append.mpr (Or.inl ?_)))
    simp [earlyInputNotifs, hv]
  · intro hsel
    rw [internalSetState_snd]
    refine List.mem_append.mpr (Or.inr ?_)
    unfold completionNotifs
    simp [hsel, rawSelectedOf]

theorem c3_noop_dispatch_witness :
    (internalSetState propsD s3 (.obj noopPatch) false).1 = s3
      ∧ Notif.onStateChange ∉ (internalSetState propsD s3 (.obj noopPatch) false).2
      ∧ Notif.onUserAction ∈ (internalSetState propsD s3 (.obj noopPatch) false).2
      ∧ Notif.onInputValueChange "x" ∈ (internalSetState propsD s3 (.obj noopPatch) false).2 := by
  have h := c3_noop_dispatch propsD s3 noopPatch false
    (fun v hv => by cases hv) (fun v hv => by cases hv)
    (fun v hv => by injection hv with hv; exact hv.symm ▸ rfl)
    (fun v hv => by cases hv)
  exact ⟨h.1, h.2.2.1, h.2.2.2.2.1, h.2.2.2.2.2.1 "x" rfl⟩

/-- Finding the first index satisfying a pointwise-true test over a
non-empty range yields index zero. -/
theorem find_range_first (m : Nat) (p : Nat → Bool) (hp : p 0 = true) (hm : 0 < m) :
    (List.range m).find? p = some 0 := by
  obtain ⟨k, rfl⟩ := Nat.exists_eq_succ_of_ne_zero (Nat.pos_iff_ne_zero.mp hm)
  rw [List.range_succ_eq_map, List.find?_cons_of_pos _ hp]

/-- C4 counterexample: `getHighlightedIndexOnOpen` with three items and a
configured `defaultHighlightedIndex` of 10 returns 10, which is neither the
sentinel nor within range — highlighted-index computation can yield an
out-of-range index. -/
theorem c4_counterexample :
    getHighlightedIndexOnOpen hookProps4 hookState4 0 = 10
      ∧ hookProps4.items.length = 3
      ∧ ¬(getHighlightedIndexOnOpen hookProps4 hookState4 0 = -1
          ∨ (0 ≤ getHighlightedIndexOnOpen hookProps4 hookState4 0
              ∧ getHighlightedIndexOnOpen hookProps4 hookState4 0
                  < (hookProps4.items.length : Int))) := by
  decide

/-- C4 (amended): the navigator's `move` arithmetic never yields anything
but the sentinel or an in-range index, and an item count less than or equal
to zero forces the sentinel, as does an empty items list in
`getHighlightedIndexOnOpen`; however `getHighlightedIndexOnOpen` passes
caller-supplied initial/default highlight values through unchecked, so those
can be out of range. -/
theorem c4_highlight_arithmetic :
    (∀ (current : Option Int) (step itemCount : Int) (isItemDisabled : Nat → Bool),
        getHighlightedIndex current step itemCount isItemDisabled = -1
          ∨ (0 ≤ getHighlightedIndex current step itemCount isItemDisabled
              ∧ getHighlightedIndex current step itemCount isItemDisabled < itemCount))
      ∧ (∀ (current : Option Int) (step itemCount : Int) (isItemDisabled : Nat → Bool),
          itemCount ≤ 0 →
            getHighlightedIndex current step itemCount isItemDisabled = -1)
      ∧ (∀ (props : HookProps) (state : HookState) (offset : Int),
          props.items = [] → getHighlightedIndexOnOpen props state offset = -1) := by
  refine ⟨?_, ?_, ?_⟩
  · intro current step itemCount isItemDisabled
    unfold getHighlightedIndex
    split
    · exact Or.inl rfl
    · rename_i hn
      push_neg at hn
      split
      · rename_i j hj
        exact Or.inr ⟨Int.emod_nonneg _ (by omega), Int.emod_lt_of_pos _ hn⟩
      · exact Or.inl rfl
  · intro current step itemCount isItemDisabled h
    unfold getHighlightedIndex
    rw [if_pos h]
  · intro props state offset h
    unfold getHighlightedIndexOnOpen
    simp [h]

theorem c4_highlight_arithmetic_witness :
    getHighlightedIndex none 1 0 (fun _ => false) = -1
      ∧ getHighlightedIndexOnOpen { items := [] } {} 0 = -1 :=
  ⟨c4_highlight_arithmetic.2.1 none 1 0 (fun _ => false) (by decide),
    c4_highlight_arithmetic.2.2 { items := [] } {} 0 rfl⟩

/-- C5: with `n` enabled items, navigating by `+1` from index `n-1` wraps
the highlight to `0` and navigating by `-1` from index `0` wraps it to
`n-1`; in particular an ArrowDown on the open three-item Scenario B session
(highlight on index 2) commits highlighted index 0. -/
theorem c5_wrap_navigation (n : Int) (hn : 0 < n) :
    getHighlightedIndex (some (n - 1)) 1 n (fun _ => false) = 0
      ∧ getHighlightedIndex (some 0) (-1) n (fun _ => false) = n - 1
      ∧ (arrowDownKeyDown sessB false).1 =
          { isOpen := true, highlightedIndex := some 0, inputValue := ""
            selectedItem := none } := by
  have hm : 0 < n.toNat := by omega
  refine ⟨?_, ?_, by decide⟩
  · unfold getHighlightedIndex
    rw [if_neg (by omega), find_range_first n.toNat _ rfl hm]
    unfold navCandidate
    simp only [startIndex]
    rw [if_pos (⟨by omega, by omega⟩ : (0:Int) ≤ n - 1 ∧ n - 1 < n)]
    simp only [Nat.cast_zero, mul_zero, add_zero]
    have h1 : n - 1 + 1 = n := by ring
    rw [h1, Int.emod_self]
  · unfold getHighlightedIndex
    rw [if_neg (by omega), find_range_first n.toNat _ rfl hm]
    unfold navCandidate
    simp only [startIndex]
    rw [if_pos (⟨le_refl 0, hn⟩ : (0:Int) ≤ 0 ∧ 0 < n)]
    simp only [Nat.cast_zero, mul_zero, add_zero]
    have h1 : (0 : Int) + -1 = (n - 1) + n * (-1) := by ring
    rw [h1, Int.add_mul_emod_self_left,
      Int.emod_eq_of_lt (by omega) (by omega)]

theorem c5_wrap_navigation_witness :
    getHighlightedIndex (some (3 - 1)) 1 3 (fun _ => false) = 0
      ∧ getHighlightedIndex (some 0) (-1) 3 (fun _ => false) = 3 - 1
      ∧ (arrowDownKeyDown sessB false).1 =
          { isOpen := true, highlightedIndex := some 0, inputValue := ""
            selectedItem := none } :=
  c5_wrap_navigation 3 (by decide)

/-- C7: every reset-family transition restores `isOpen` and
`highlightedIndex` to the configured defaults and recomputes `inputValue`
from the current `selectedItem` via the string projector, leaving
`selectedItem` unchanged; an Escape while the internal state is already
closed additionally clears `selectedItem` to null and `inputValue` to the
empty string, whereas an Escape while open leaves `selectedItem` unchanged. -/
theorem c7_reset_family (props : Props) (s : DState) (t : ChangeType)
    (hred : props.stateReducer = defaultStateReducer)
    (ho : props.isOpenProp = none) (hh : props.highlightedIndexProp = none)
    (hin : props.inputValueProp = none) (hsel : props.selectedItemProp = none) :
    (reset props s { type := some t } false).1 =
        { isOpen := props.defaultIsOpen
          highlightedIndex := props.defaultHighlightedIndex
          inputValue := props.itemToString s.selectedItem
          selectedItem := s.selectedItem }
      ∧ (s.isOpen = true →
          (escapeKeyDown props s).1 =
            { isOpen := props.defaultIsOpen
              highlightedIndex := props.defaultHighlightedIndex
              inputValue := props.itemToString s.selectedItem
              selectedItem := s.selectedItem })
      ∧ (s.isOpen = false →
          (escapeKeyDown props s).1 =
            { isOpen := props.defaultIsOpen
              highlightedIndex := props.defaultHighlightedIndex
              inputValue := ""
              selectedItem := none }) := by
  have hu := getState_uncontrolled props s ho hh hin hsel
  refine ⟨?_, ?_, ?_⟩
  · rw [reset, internalSetState_fst]
    simp [reducedPatch, proposedPatch, hred, defaultStateReducer, hu,
      Patch.mergeOver, commitPatch, ho, hh, hin, hsel]
  · intro hopen
    rw [escapeKeyDown, if_pos (by simp [hopen]), reset, internalSetState_fst]
    simp [reducedPatch, proposedPatch, hred, defaultStateReducer, hu,
      Patch.mergeOver, commitPatch, ho, hh, hin, hsel]
  · intro hclosed
    rw [escapeKeyDown, if_neg (by simp [hclosed]), reset, internalSetState_fst]
    simp [reducedPatch, proposedPatch, hred, defaultStateReducer, hu,
      Patch.mergeOver, commitPatch, ho, hh, hin, hsel]

theorem c7_reset_family_witness :
    (reset propsD sEsc { type := some ChangeType.mouseUp } false).1 =
        { isOpen := false, highlightedIndex := none, inputValue := "b"
          selectedItem := some "b" }
      ∧ (escapeKeyDown propsD sEsc).1 =
          { isOpen := false, highlightedIndex := none, inputValue := "b"
            selectedItem := some "b" }
      ∧ (escapeKeyDown propsD sEscClosed).1 =
          { isOpen := false, highlightedIndex := none, inputValue := ""
            selectedItem := none } := by
  have h1 := c7_reset_family propsD sEsc ChangeType.mouseUp rfl rfl rfl rfl rfl
  have h2 := c7_reset_family propsD sEscClosed ChangeType.mouseUp rfl rfl rfl rfl rfl
  exact ⟨h1.1.trans (by decide), (h1.2.1 rfl).trans (by decide),
    (h2.2.2 rfl).trans (by decide)⟩

/-- C8 counterexample: with an override that rewrites every proposal to
`inputValue := "B"`, dispatching the raw proposal `inputValue := "A"`
commits `"B"` but fires the per-field `onInputValueChange` notification with
the RAW proposal's `"A"` — so notifications are not run exclusively against
the override's output. -/
theorem c8_counterexample :
    (reducedPatch propsR s8 (.obj patch8)).inputValue = some "B"
      ∧ Notif.onInputValueChange "A" ∈ (internalSetState propsR s8 (.obj patch8) false).2
      ∧ Notif.onInputValueChange "B" ∉ (internalSetState propsR s8 (.obj patch8) false).2
      ∧ (internalSetState propsR s8 (.obj patch8) false).1.inputValue = "B" := by
  decide

/-- C8 (amended): the committed patch and the per-field diffing behind the
aggregate notification are computed exactly from the override's output (two
proposals with the same override output commit the same state and agree on
whether the aggregate notification fires), and the default override is the
identity, so without an override the committed patch equals the proposal;
however the early inputValue notification for object patches and the
`onSelect` argument are taken from the raw proposal. -/
theorem c8_override_output_applied (props : Props) (s : DState) (p1 p2 : Patch)
    (hasCb : Bool)
    (h : reducedPatch props s (.obj p1) = reducedPatch props s (.obj p2)) :
    (internalSetState props s (.obj p1) hasCb).1
        = (internalSetState props s (.obj p2) hasCb).1
      ∧ (Notif.onStateChange ∈ (internalSetState props s (.obj p1) hasCb).2
          ↔ Notif.onStateChange ∈ (internalSetState props s (.obj p2) hasCb).2)
      ∧ (∀ (state : DState) (q : Patch), defaultStateReducer state q = q)
      ∧ (props.stateReducer = defaultStateReducer →
          reducedPatch props s (.obj p1) = p1) := by
  refine ⟨?_, ?_, fun _ _ => rfl, ?_⟩
  · rw [internalSetState_fst, internalSetState_fst, h]
  · rw [onStateChange_mem_iff, onStateChange_mem_iff, h]
  · intro hr
    simp [reducedPatch, proposedPatch, hr, defaultStateReducer]

theorem c8_override_output_applied_witness :
    (internalSetState propsR s8 (.obj { inputValue := some "A" }) false).1
      = (internalSetState propsR s8 (.obj { inputValue := some "C" }) false).1 :=
  (c8_override_output_applied propsR s8 { inputValue := some "A" }
    { inputValue := some "C" } false rfl).1

end Downshift
